import Mathlib

/-!
# XRoboFly backend — checkout-to-order reconciliation workflow

Shallow embedding of `src/controller/payment.controller.js`
(`createCheckoutSession`, `checkoutSuccess`, `cashfreeWebhook` and the helper
`verifyCashfreeWebhook`) together with the MongoDB / Redis state they touch.

Modelling conventions:
* Mongo collections and the Redis keyspace are association lists.
* Machine numbers are exact: money amounts are `ℚ` (JavaScript numbers; the
  spec's pricing rule is stated over exact arithmetic and all claimed test
  points are float-exact), stock and quantities are `ℤ`.
* A JavaScript `throw` that is stopped by the surrounding `try/catch` is an
  `Except.error`; the catch-handler is applied on top of the `Except`-valued
  run function, exactly mirroring the `try { … } catch (error) { … }` shape
  of each controller.
* JavaScript truthiness on strings (`""` is falsy) is modelled explicitly
  where the source branches on it.
-/

namespace XRoboFly

/-- JavaScript string truthiness: `some s` when `s` is truthy (non-empty). -/
def strTruthy : Option String → Option String
  | none => none
  | some s => if s = "" then none else some s

/-- JavaScript `a || b` for an optional string `a` falling back to `b`
(`""` is falsy, so it falls through to `b`). -/
def jsOrStr (a : Option String) (b : Option String) : Option String :=
  match strTruthy a with
  | some s => some s
  | none => b

/-! ## Data model -/

/-- A line item of a persisted Order (`products` array in the Order
document created at `payment.controller.js:266-272`). -/
structure OrderLine where
  product : String
  quantity : ℤ
  price : ℚ
  deriving DecidableEq, Repr

/-- A persisted Order document (the fields `checkoutSuccess` and
`cashfreeWebhook` read or write). -/
structure OrderRec where
  user : Option String
  products : List OrderLine
  totalAmount : ℚ
  shippingAddress : String
  orderStatus : String
  cashfreeOrderId : String
  cashfreePaymentId : Option String
  deriving DecidableEq, Repr

/-- A Product document: `_id`, catalog data and the shared mutable `stock`.
`stock : ℤ` so that the never-negative invariant is expressible. -/
structure ProductRec where
  id : String
  name : String
  price : ℚ
  stock : ℤ
  images : List String
  deriving DecidableEq, Repr

/-- A frozen product line inside the pending-order JSON stored in Redis
(`orderProducts` built at `payment.controller.js:108-114`). -/
structure ResvLine where
  productId : String
  name : String
  price : ℚ
  quantity : ℤ
  image : String
  deriving DecidableEq, Repr

/-- The pending-order record serialized to Redis at
`payment.controller.js:155-171` (the spec's Reservation). -/
structure Reservation where
  userId : Option String
  shippingAddress : String
  products : List ResvLine
  subtotal : ℚ
  shipping : ℚ
  tax : ℚ
  discount : ℚ
  totalAmount : ℚ
  deriving DecidableEq, Repr

/-- One payment attempt as returned by `Cashfree.PGOrderFetchPayments`. -/
structure Payment where
  payment_status : String
  cf_payment_id : Option String
  deriving DecidableEq, Repr

/-- `PENDING_KEY` (`payment.controller.js:10`). -/
def PENDING_KEY (id : String) : String := "pending_order:" ++ id

/-- The Redis keyspace relevant to the workflow. -/
abbrev RedisStore := List (String × Reservation)

/-- `redis.get key` — first binding for the key. -/
def redisGet (store : RedisStore) (key : String) : Option Reservation :=
  (store.find? fun kv => kv.1 = key).map Prod.snd

/-- `redis.set key v` — overwrite/insert the binding. -/
def redisSet (store : RedisStore) (key : String) (v : Reservation) : RedisStore :=
  (key, v) :: store.filter fun kv => ¬ kv.1 = key

/-- `redis.del key`. -/
def redisDel (store : RedisStore) (key : String) : RedisStore :=
  store.filter fun kv => ¬ kv.1 = key

/-- `Order.findOne({ cashfreeOrderId })`. -/
def findOrder (orders : List OrderRec) (oid : String) : Option OrderRec :=
  orders.find? fun o => o.cashfreeOrderId = oid

/-! ## Pricing (`createCheckoutSession`, `payment.controller.js:117-124`) -/

/-- JavaScript `Math.round` (round half towards +∞) over exact numbers. -/
def jsRound (q : ℚ) : ℤ := ⌊q + 1/2⌋

/-- The price breakdown computed at checkout-session time. -/
structure Pricing where
  baseSubtotal : ℚ
  tax : ℚ
  shipping : ℚ
  discount : ℚ
  totalAmount : ℚ
  deriving DecidableEq, Repr

/-- `payment.controller.js:117-124`: prices in the catalog are GST-inclusive;
shipping is free over 5000, else a flat 99; the pre-GST base is
`Math.round(subtotal / 1.05)` and the GST is the remainder. -/
def computePricing (subtotalInclGST : ℚ) : Pricing :=
  let shipping : ℚ := if subtotalInclGST > 5000 then 0 else 99
  let baseSubtotal : ℚ := (jsRound (subtotalInclGST / 1.05) : ℤ)
  { baseSubtotal := baseSubtotal
    tax := subtotalInclGST - baseSubtotal
    shipping := shipping
    discount := 0
    totalAmount := subtotalInclGST + shipping }

/-- The subtotal loop at `payment.controller.js:102-115`:
`subtotal = Σ product.price * item.quantity`. -/
def subtotalOf (lines : List (ℚ × ℤ)) : ℚ :=
  lines.foldl (fun acc l => acc + l.1 * (l.2 : ℚ)) 0

/-! ## Inventory decrement (`checkoutSuccess`, `payment.controller.js:281-297`)

`Product.findOneAndUpdate({ _id, stock: { $gte: qty } }, { $inc: { stock: -qty } })`
is a single atomic conditional update: it matches a document with the given
`_id` whose `stock` is at least `qty` and decrements it, or matches nothing
and returns `null`. -/

/-- One `findOneAndUpdate` decrement: `some` of the updated collection when a
matching document (right `_id` and sufficient stock) exists, else `none`. -/
def decrementLine (ps : List ProductRec) (pid : String) (qty : ℤ) :
    Option (List ProductRec) :=
  match ps with
  | [] => none
  | p :: rest =>
    if p.id = pid ∧ qty ≤ p.stock then
      some ({ p with stock := p.stock - qty } :: rest)
    else
      (decrementLine rest pid qty).map (p :: ·)

/-- The `for (const item of orderData.products)` loop: apply the conditional
decrement line by line; on the first failing line return that line together
with the collection as it stands at that point (earlier decrements applied,
exactly as in the source, which does not reverse them). -/
def applyDecrements (lines : List ResvLine) (ps : List ProductRec) :
    Except (ResvLine × List ProductRec) (List ProductRec) :=
  match lines with
  | [] => .ok ps
  | l :: ls =>
    match decrementLine ps l.productId l.quantity with
    | some ps' => applyDecrements ls ps'
    | none => .error (l, ps)

/-! ## `checkoutSuccess` (`payment.controller.js:202-355`) -/

/-- Environment of one `checkoutSuccess` request: the request body and user,
the Cashfree payment-fetch result, and snapshots of the shared state.
`concurrent` holds Orders committed by other workers between this handler's
`Order.findOne` and its `Order.create` (empty in a sequential run). -/
structure CheckoutEnv where
  orderId : Option String
  reqUser : Option String
  payments : List Payment
  orders : List OrderRec
  concurrent : List OrderRec
  redis : RedisStore
  products : List ProductRec
  deriving Repr

/-- The Order collection as it stands at `Order.create` time: this worker's
`findOne` snapshot plus the concurrently committed writes. -/
def allOrders (env : CheckoutEnv) : List OrderRec :=
  env.orders ++ env.concurrent

/-- Outcome of one `checkoutSuccess` request: HTTP status, response message,
the order in the response body (if any), and the post-state. -/
structure CheckoutResult where
  status : ℕ
  message : String
  order : Option OrderRec
  orders : List OrderRec
  redis : RedisStore
  products : List ProductRec
  deriving DecidableEq, Repr

/-- The ownership check at `payment.controller.js:258`:
`orderData.userId && req.user?._id?.toString() !== orderData.userId`. -/
def userMismatch (resvUser reqUser : Option String) : Bool :=
  match strTruthy resvUser with
  | none => false
  | some u => decide (reqUser ≠ some u)

/-- The Order document built by `Order.create` at
`payment.controller.js:266-279` from the pending-order data. -/
def buildOrder (oid : String) (orderData : Reservation) (latest : Payment) :
    OrderRec :=
  { user := orderData.userId
    products := orderData.products.map fun p =>
      { product := p.productId, quantity := p.quantity, price := p.price }
    totalAmount := orderData.totalAmount
    shippingAddress := orderData.shippingAddress
    orderStatus := "pending"
    cashfreeOrderId := oid
    cashfreePaymentId := latest.cf_payment_id }

/-- Body of the `try` block of `checkoutSuccess`
(`payment.controller.js:203-347`). An `Except.error` is a thrown exception
(caught by the surrounding `catch`). `Order.create` is modelled from the
spec: the Order collection has a unique index on the gateway order id
(`Order.model.js` itself is not part of the sources), so the create throws a
duplicate-key error when an Order with this `cashfreeOrderId` is already
committed — which, `findOne` having returned nothing, can only come from
`concurrent`. -/
def checkoutSuccessRun (env : CheckoutEnv) : Except String CheckoutResult :=
  match strTruthy env.orderId with
  | none => .ok
      { status := 400, message := "Order ID is required", order := none
        orders := allOrders env, redis := env.redis, products := env.products }
  | some oid =>
    match env.payments with
    | [] => .ok
        { status := 400, message := "No payment information found", order := none
          orders := allOrders env, redis := env.redis, products := env.products }
    | latest :: _ =>
      if latest.payment_status ≠ "SUCCESS" then .ok
        { status := 400, message := "Payment not completed", order := none
          orders := allOrders env, redis := env.redis, products := env.products }
      else
        match findOrder env.orders oid with
        | some existing => .ok
            { status := 200, message := "Order already processed"
              order := some existing, orders := allOrders env
              redis := env.redis, products := env.products }
        | none =>
          match redisGet env.redis (PENDING_KEY oid) with
          | none => .ok
              { status := 400
                message := "Order data not found. Session may have expired."
                order := none, orders := allOrders env
                redis := env.redis, products := env.products }
          | some orderData =>
            if userMismatch orderData.userId env.reqUser then .ok
              { status := 403, message := "Unauthorized", order := none
                orders := allOrders env, redis := env.redis
                products := env.products }
            else
              match findOrder (allOrders env) oid with
              | some _ => .error "E11000 duplicate key error"
              | none =>
                match applyDecrements orderData.products env.products with
                | .error (l, ps') => .ok
                    { status := 409
                      message := "Insufficient stock for " ++ l.name ++
                        ". Please update your cart and try again."
                      order := none
                      orders := allOrders env
                      redis := redisDel env.redis (PENDING_KEY oid)
                      products := ps' }
                | .ok ps' => .ok
                    { status := 200
                      message := "Payment verified and order created"
                      order := some (buildOrder oid orderData latest)
                      orders := allOrders env ++ [buildOrder oid orderData latest]
                      redis := redisDel env.redis (PENDING_KEY oid)
                      products := ps' }

/-- `checkoutSuccess` with its `catch` handler
(`payment.controller.js:348-354`): any thrown error becomes a 500 response
and this handler performs no further writes. -/
def checkoutSuccess (env : CheckoutEnv) : CheckoutResult :=
  match checkoutSuccessRun env with
  | .ok r => r
  | .error m =>
      { status := 500, message := m, order := none
        orders := allOrders env, redis := env.redis, products := env.products }

/-! ## Webhook signature verification (`payment.controller.js:13-21`)

`verifyCashfreeWebhook` computes `HMAC-SHA256(secret, timestamp + rawBody)`
in base64 and compares it with the signature header via
`crypto.timingSafeEqual`. The HMAC itself is an opaque function of the
environment. `crypto.timingSafeEqual(a, b)` (Node) performs a constant-time
comparison of two equal-length buffers and **throws**
`ERR_CRYPTO_TIMING_SAFE_EQUAL_LENGTH` when the byte lengths differ; byte
lengths are UTF-8 byte sizes of the strings. -/

/-- `verifyCashfreeWebhook(rawBody, timestamp, signature)`:
`Except.error ()` is the `timingSafeEqual` length-mismatch throw. -/
def verifyCashfreeWebhook (secret : Option String)
    (hmac : String → String → String)
    (rawBody timestamp signature : String) : Except Unit Bool :=
  match strTruthy secret with
  | none => .ok false
  | some sec =>
    if rawBody = "" ∨ timestamp = "" ∨ signature = "" then .ok false
    else
      let expected := hmac sec (timestamp ++ rawBody)
      if expected.utf8ByteSize = signature.utf8ByteSize then
        .ok (expected = signature)
      else
        .error ()

/-! ## `cashfreeWebhook` (`payment.controller.js:361-425`) -/

/-- The `data` member of the parsed webhook body: `order` is
`data.order?.order_id` (absent when `data.order` or `data.order.order_id`
is missing) and `cf_payment_id` is `data.payment?.cf_payment_id`. -/
structure WebhookData where
  order : Option String
  cf_payment_id : Option String
  deriving DecidableEq, Repr

/-- Environment of one inbound webhook request. `secret` is
`process.env.CASHFREE_SECRET_KEY`; `hmac sec payload` is the base64
HMAC-SHA256 digest; `saveFails` makes `order.save()` throw, standing for an
arbitrary internal persistence error. `req.body` is carried separately from
`req.rawBody`: the two are what the client actually sent. -/
structure WebhookEnv where
  secret : Option String
  hmac : String → String → String
  rawBody : String
  tsHeader : Option String
  sigHeader : Option String
  wtype : Option String
  wdata : Option WebhookData
  saveFails : Bool
  orders : List OrderRec
  redis : RedisStore
  products : List ProductRec

/-- Outcome of one webhook request: HTTP status, message and post-state
(the handler never touches Redis or Products; they are carried through so
that no-mutation claims are expressible). -/
structure WebhookResult where
  status : ℕ
  message : String
  orders : List OrderRec
  redis : RedisStore
  products : List ProductRec
  deriving DecidableEq, Repr

/-- Replace the first element satisfying `p` (the document found by
`Order.findOne` and then mutated and `save()`d). -/
def updateFirst (p : α → Bool) (f : α → α) : List α → List α
  | [] => []
  | x :: xs => if p x then f x :: xs else x :: updateFirst p f xs

/-- An `order.save()` call with the document mutated by `f`: replaces the
found document in the collection, or throws when persistence fails. -/
def webhookSave (env : WebhookEnv) (oid : String) (f : OrderRec → OrderRec) :
    Except String (List OrderRec) :=
  if env.saveFails then .error "save failed"
  else .ok (updateFirst (fun o => o.cashfreeOrderId = oid) f env.orders)

/-- The `switch (type)` of the webhook handler
(`payment.controller.js:392-416`) applied to the found order; returns the
updated collection, or `Except.error` when `order.save()` throws. -/
def webhookSwitch (env : WebhookEnv) (oid : String) (d : WebhookData)
    (order : OrderRec) : Except String (List OrderRec) :=
  match env.wtype with
  | some "PAYMENT_SUCCESS_WEBHOOK" =>
    if order.orderStatus = "pending" then
      webhookSave env oid fun o =>
        { o with
          orderStatus := "processing"
          cashfreePaymentId := jsOrStr d.cf_payment_id o.cashfreePaymentId }
    else .ok env.orders
  | some "PAYMENT_FAILED_WEBHOOK" =>
    webhookSave env oid fun o => { o with orderStatus := "cancelled" }
  | some "PAYMENT_USER_DROPPED_WEBHOOK" =>
    webhookSave env oid fun o => { o with orderStatus := "cancelled" }
  | _ => .ok env.orders

/-- A `res.status(s).json(...)` response of the webhook handler with the
state it leaves behind (the handler never touches Redis or Products). -/
def webhookAck (env : WebhookEnv) (status : ℕ) (msg : String)
    (orders : List OrderRec) : Except String WebhookResult :=
  .ok { status := status, message := msg, orders := orders
        redis := env.redis, products := env.products }

/-- The webhook body after the signature gate
(`payment.controller.js:373-418`): payload validation, order lookup and the
status `switch`. -/
def webhookProceed (env : WebhookEnv) : Except String WebhookResult :=
  match env.wdata with
  | none => webhookAck env 200 "Webhook acknowledged" env.orders
  | some d =>
    match strTruthy d.order with
    | none => webhookAck env 200 "Webhook acknowledged" env.orders
    | some oid =>
      match findOrder env.orders oid with
      | none => webhookAck env 200 "Order not found" env.orders
      | some order =>
        match webhookSwitch env oid d order with
        | .error m => .error m
        | .ok orders' => webhookAck env 200 "" orders'

/-- Body of the `try` block of `cashfreeWebhook`
(`payment.controller.js:362-419`). Signature verification runs only when
both the `x-webhook-timestamp` and `x-webhook-signature` headers are truthy
(`if (timestamp && signature)`); a missing or empty header skips it. -/
def cashfreeWebhookRun (env : WebhookEnv) : Except String WebhookResult :=
  match strTruthy env.tsHeader, strTruthy env.sigHeader with
  | some ts, some sig =>
    match verifyCashfreeWebhook env.secret env.hmac env.rawBody ts sig with
    | .error _ => .error "Input buffers must have the same byte length"
    | .ok false => webhookAck env 401 "Invalid signature" env.orders
    | .ok true => webhookProceed env
  | _, _ => webhookProceed env

/-- `cashfreeWebhook` with its `catch` handler
(`payment.controller.js:420-424`): any thrown error is swallowed and
acknowledged with 200 ("Always return 200 to Cashfree to prevent
retries"); a throw never commits a partial `save`. -/
def cashfreeWebhook (env : WebhookEnv) : WebhookResult :=
  match cashfreeWebhookRun env with
  | .ok r => r
  | .error _ =>
      { status := 200, message := "Webhook received", orders := env.orders
        redis := env.redis, products := env.products }

/-! ## `createCheckoutSession` (`payment.controller.js:41-196`) -/

/-- One entry of `req.body.products`. -/
structure CartItem where
  productId : String
  quantity : ℤ
  deriving DecidableEq, Repr

/-- The ObjectId format test `/^[0-9a-fA-F]{24}$/.test(item.productId)`
(`payment.controller.js:61`). -/
def isValidObjectId (s : String) : Bool :=
  s.length = 24 && s.toList.all fun c =>
    c.isDigit || ('a' ≤ c && c ≤ 'f') || ('A' ≤ c && c ≤ 'F')

/-- `Product.findById`. -/
def findById (catalog : List ProductRec) (pid : String) : Option ProductRec :=
  catalog.find? fun p => p.id = pid

/-- The product-validation loop (`payment.controller.js:57-76`): resolve
each line against the catalog (only ids in valid ObjectId format are looked
up) and fail with the 400 message of the first unresolvable line. -/
def fetchProducts (catalog : List ProductRec) :
    List CartItem → Except String (List ProductRec)
  | [] => .ok []
  | it :: its =>
    match if isValidObjectId it.productId then findById catalog it.productId else none with
    | none => .error ("Product not found: " ++ it.productId ++
        ". Please ensure you're using valid product IDs from the database.")
    | some p => (fetchProducts catalog its).map (p :: ·)

/-- The advisory stock check (`payment.controller.js:86-96`): the name of
the first line whose requested quantity exceeds current stock. -/
def firstInsufficient : List (ProductRec × CartItem) → Option ProductRec
  | [] => none
  | (p, it) :: rest =>
    if p.stock < it.quantity then some p else firstInsufficient rest

/-- The frozen `orderProducts` snapshot (`payment.controller.js:108-114`). -/
def buildResvLines (pairs : List (ProductRec × CartItem)) : List ResvLine :=
  pairs.map fun pi =>
    { productId := pi.1.id, name := pi.1.name, price := pi.1.price
      quantity := pi.2.quantity, image := pi.1.images.headD "" }

/-- Environment of one `createCheckoutSession` request. `hasCustomer` and
`hasShipping` are the truthiness of `customerDetails` / `shippingAddress`
in the body, `shippingAddr` the (opaque) shipping address payload;
`gatewayResp` is the outcome of `Cashfree.PGCreateOrder` — `.error` when
the gateway call throws (network error, 4xx/5xx, timeout), `.ok` carrying
`payment_session_id` and the echoed `order_id`; `freshId` is the generated
`XRF_…` order id. -/
structure SessionEnv where
  hasCustomer : Bool
  hasShipping : Bool
  shippingAddr : String
  items : Option (List CartItem)
  reqUser : Option String
  catalog : List ProductRec
  gatewayResp : Except String (Option String × Option String)
  freshId : String
  redis : RedisStore
  deriving Repr

/-- Outcome of one `createCheckoutSession` request. The handler never
writes Products or Orders; `redis` is the pending-reservation store after
the request. -/
structure SessionResult where
  status : ℕ
  message : String
  paymentSessionId : Option String
  orderId : Option String
  orderAmount : Option ℚ
  redis : RedisStore
  deriving DecidableEq, Repr

/-- A 4xx rejection of `createCheckoutSession`: nothing is written. -/
def sessionReject (env : SessionEnv) (status : ℕ) (msg : String) :
    Except String SessionResult :=
  .ok { status := status, message := msg, paymentSessionId := none
        orderId := none, orderAmount := none, redis := env.redis }

/-- The tail of `createCheckoutSession` after `Cashfree.PGCreateOrder`
succeeded (`payment.controller.js:154-187`): the Reservation (frozen lines
and price breakdown) is written to Redis and the session is returned. -/
def sessionSuccess (env : SessionEnv) (items : List CartItem)
    (dbProducts : List ProductRec) (psid echoedOid : Option String) :
    Except String SessionResult :=
  let lines := buildResvLines (dbProducts.zip items)
  let pricing := computePricing (subtotalOf (lines.map fun l => (l.price, l.quantity)))
  .ok { status := 200
        message := "Checkout session created"
        paymentSessionId := psid
        orderId := jsOrStr echoedOid (some env.freshId)
        orderAmount := some pricing.totalAmount
        redis := redisSet env.redis (PENDING_KEY env.freshId)
          { userId := env.reqUser
            shippingAddress := env.shippingAddr
            products := lines
            subtotal := pricing.baseSubtotal
            shipping := pricing.shipping
            tax := pricing.tax
            discount := pricing.discount
            totalAmount := pricing.totalAmount } }

/-- Body of the `try` block of `createCheckoutSession`
(`payment.controller.js:42-188`). -/
def createCheckoutSessionRun (env : SessionEnv) : Except String SessionResult :=
  match env.items with
  | none => sessionReject env 400 "Missing required fields"
  | some items =>
    if ¬ env.hasCustomer ∨ ¬ env.hasShipping ∨ items = [] then
      sessionReject env 400 "Missing required fields"
    else
      match fetchProducts env.catalog items with
      | .error m => sessionReject env 400 m
      | .ok dbProducts =>
        match firstInsufficient (dbProducts.zip items) with
        | some p => sessionReject env 400 ("Insufficient stock for " ++ p.name ++
            ". Available: " ++ toString p.stock)
        | none =>
          match env.gatewayResp with
          | .error m => .error m
          | .ok (psid, echoedOid) => sessionSuccess env items dbProducts psid echoedOid

/-- `createCheckoutSession` with its `catch` handler
(`payment.controller.js:189-195`): a throw (in particular a gateway
failure) becomes a 500 response; the Redis write at
`payment.controller.js:155` is only reached after the gateway call has
succeeded, so the store is untouched. -/
def createCheckoutSession (env : SessionEnv) : SessionResult :=
  match createCheckoutSessionRun env with
  | .ok r => r
  | .error m =>
      { status := 500, message := m, paymentSessionId := none
        orderId := none, orderAmount := none, redis := env.redis }

/-! ## Derived notions used by the statements -/

/-- Total stock across the Product collection. -/
def sumStocks (ps : List ProductRec) : ℤ := (ps.map (·.stock)).sum

/-- Sum of the quantities of a list of reservation lines. -/
def qtySum (lines : List ResvLine) : ℤ := (lines.map (·.quantity)).sum

/-- Number of Orders carrying a given gateway order id. -/
def countOrders (oid : String) (l : List OrderRec) : ℕ :=
  (l.filter fun o => o.cashfreeOrderId = oid).length

/-- The pricing rule as the specification words it: `baseSubtotal =
round(subtotal / 1.05)`, `tax = subtotal - baseSubtotal`, `shipping = 0 if
subtotal > 5000 else flatFee (99)`, `total = subtotal + shipping`,
no discount. Stated independently of `computePricing` to compare the two. -/
def pricingSpec (subtotal : ℚ) : Pricing :=
  { baseSubtotal := (jsRound (subtotal / 1.05) : ℤ)
    tax := subtotal - (jsRound (subtotal / 1.05) : ℤ)
    shipping := if subtotal > 5000 then 0 else 99
    discount := 0
    totalAmount := subtotal + (if subtotal > 5000 then 0 else 99) }

/-- Signature verification does not stop the webhook: either a header is
missing/empty (verification skipped) or the comparison returned `true`. -/
def sigPasses (env : WebhookEnv) : Bool :=
  match strTruthy env.tsHeader, strTruthy env.sigHeader with
  | some ts, some sig =>
    match verifyCashfreeWebhook env.secret env.hmac env.rawBody ts sig with
    | .ok true => true
    | _ => false
  | _, _ => true

/-! ## Concrete environments for witnesses and counterexamples -/

/-- An already-materialized Order for gateway order id `CF_1`. -/
def o1 : OrderRec :=
  { user := none, products := [], totalAmount := 100, shippingAddress := "addr"
    orderStatus := "pending", cashfreeOrderId := "CF_1", cashfreePaymentId := some "p1" }

/-- A pending-order record for `CF_1` with no lines. -/
def resvC1 : Reservation :=
  { userId := none, shippingAddress := "addr", products := [], subtotal := 0
    shipping := 99, tax := 0, discount := 0, totalAmount := 99 }

/-- `CF_1` already has an Order, but the gateway returns no payment attempts. -/
def envC1a : CheckoutEnv :=
  { orderId := some "CF_1", reqUser := none, payments := [], orders := [o1]
    concurrent := [], redis := [], products := [] }

/-- `CF_1` has no Order at `findOne` time, but a concurrent worker commits
one before this worker's `Order.create`. -/
def envC1b : CheckoutEnv :=
  { orderId := some "CF_1", reqUser := none
    payments := [{ payment_status := "SUCCESS", cf_payment_id := some "p1" }]
    orders := [], concurrent := [o1]
    redis := [(PENDING_KEY "CF_1", resvC1)], products := [] }

/-- `CF_1` already has an Order and the gateway reports a successful payment. -/
def envC1w : CheckoutEnv :=
  { orderId := some "CF_1", reqUser := none
    payments := [{ payment_status := "SUCCESS", cf_payment_id := some "p1" }]
    orders := [o1], concurrent := [], redis := [], products := [] }

/-- Product A: plenty of stock. -/
def prodA : ProductRec :=
  { id := "A", name := "Widget A", price := 100, stock := 5, images := [] }

/-- Product B: stock 1, insufficient for a 2-unit line. -/
def prodB : ProductRec :=
  { id := "B", name := "Widget B", price := 200, stock := 1, images := [] }

/-- Reservation for `CF_2`: line 1 = 1 × A (satisfiable), line 2 = 2 × B
(insufficient at materialization time). -/
def resvC2 : Reservation :=
  { userId := none, shippingAddress := "addr2"
    products :=
      [ { productId := "A", name := "Widget A", price := 100, quantity := 1, image := "" }
      , { productId := "B", name := "Widget B", price := 200, quantity := 2, image := "" } ]
    subtotal := 476, shipping := 99, tax := 24, discount := 0, totalAmount := 599 }

/-- Materialization of `CF_2` in which the stock decrement for line 2 fails. -/
def envC2 : CheckoutEnv :=
  { orderId := some "CF_2", reqUser := none
    payments := [{ payment_status := "SUCCESS", cf_payment_id := some "p2" }]
    orders := [], concurrent := []
    redis := [(PENDING_KEY "CF_2", resvC2)], products := [prodA, prodB] }

/-- A pending Order for `CF_3`, target of the unauthenticated webhook. -/
def oC3 : OrderRec :=
  { user := none, products := [], totalAmount := 250, shippingAddress := "addr3"
    orderStatus := "pending", cashfreeOrderId := "CF_3", cashfreePaymentId := some "old" }

/-- Webhook request for `CF_3` with a configured secret, a tampered body and
**no signature header at all**. -/
def envC3a : WebhookEnv :=
  { secret := some "topsecret", hmac := fun s p => "MAC(" ++ s ++ "," ++ p ++ ")"
    rawBody := "tampered-body", tsHeader := some "1700000000", sigHeader := none
    wtype := some "PAYMENT_SUCCESS_WEBHOOK"
    wdata := some { order := some "CF_3", cf_payment_id := some "pay_new" }
    saveFails := false, orders := [oC3], redis := [], products := [] }

/-- Same webhook with a signature header of the wrong byte length. -/
def envC3b : WebhookEnv :=
  { envC3a with sigHeader := some "zz" }

/-- Webhook with both headers present and an equal-length wrong signature. -/
def envC3w : WebhookEnv :=
  { secret := some "topsecret", hmac := fun _ _ => "XY"
    rawBody := "tampered-body", tsHeader := some "1700000000", sigHeader := some "AB"
    wtype := some "PAYMENT_SUCCESS_WEBHOOK"
    wdata := some { order := some "CF_3", cf_payment_id := some "pay_new" }
    saveFails := false, orders := [oC3], redis := [], products := [] }

/-- Product C for the fully successful materialization. -/
def prodC : ProductRec :=
  { id := "C", name := "Widget C", price := 150, stock := 10, images := [] }

/-- Reservation for `CF_4`: one line of 3 × C. -/
def resvC4 : Reservation :=
  { userId := none, shippingAddress := "addr4"
    products :=
      [ { productId := "C", name := "Widget C", price := 150, quantity := 3, image := "" } ]
    subtotal := 429, shipping := 99, tax := 21, discount := 0, totalAmount := 549 }

/-- Fully successful materialization of `CF_4`. -/
def envC4w : CheckoutEnv :=
  { orderId := some "CF_4", reqUser := none
    payments := [{ payment_status := "SUCCESS", cf_payment_id := some "p4" }]
    orders := [], concurrent := []
    redis := [(PENDING_KEY "CF_4", resvC4)], products := [prodC] }

/-- Product D, referenced by the `CF_5` reservation. -/
def prodD : ProductRec :=
  { id := "D", name := "Widget D", price := 300, stock := 4, images := [] }

/-- Reservation for `CF_5`: one line of 1 × D. -/
def resvC5 : Reservation :=
  { userId := none, shippingAddress := "addr5"
    products :=
      [ { productId := "D", name := "Widget D", price := 300, quantity := 1, image := "" } ]
    subtotal := 286, shipping := 99, tax := 14, discount := 0, totalAmount := 399 }

/-- Success webhook for `CF_5`: Reservation stored, payment succeeded at the
gateway, no Order materialized yet, no signature headers (verification
skipped). -/
def envC5 : WebhookEnv :=
  { secret := none, hmac := fun _ _ => "", rawBody := ""
    tsHeader := none, sigHeader := none
    wtype := some "PAYMENT_SUCCESS_WEBHOOK"
    wdata := some { order := some "CF_5", cf_payment_id := some "pay5" }
    saveFails := false, orders := []
    redis := [(PENDING_KEY "CF_5", resvC5)], products := [prodD] }

/-- The same `CF_5` situation presented to the client confirmation call. -/
def envC5m : CheckoutEnv :=
  { orderId := some "CF_5", reqUser := none
    payments := [{ payment_status := "SUCCESS", cf_payment_id := some "pay5" }]
    orders := [], concurrent := []
    redis := [(PENDING_KEY "CF_5", resvC5)], products := [prodD] }

/-- A catalog product with a well-formed ObjectId. -/
def prodE : ProductRec :=
  { id := "0123456789abcdef01234567", name := "Widget E", price := 1050
    stock := 8, images := ["img.png"] }

/-- Checkout-session request whose gateway call times out. -/
def envC7w : SessionEnv :=
  { hasCustomer := true, hasShipping := true, shippingAddr := "addr7"
    items := some [{ productId := "0123456789abcdef01234567", quantity := 1 }]
    reqUser := some "user7", catalog := [prodE]
    gatewayResp := .error "Request failed with status code 502"
    freshId := "XRF_7", redis := [] }

/-- A 44-character digest, the byte length of a base64 HMAC-SHA256. -/
def hmac44 : String → String → String :=
  fun _ _ => "0123456789ABCDEF0123456789ABCDEF0123456789A="

/-- A pending Order for `CF_8`. -/
def oC8 : OrderRec :=
  { user := none, products := [], totalAmount := 500, shippingAddress := "addr8"
    orderStatus := "pending", cashfreeOrderId := "CF_8", cashfreePaymentId := none }

/-- Webhook for `CF_8` whose signature header has the wrong byte length:
`crypto.timingSafeEqual` throws and the catch-all answers 200. -/
def envC8 : WebhookEnv :=
  { secret := some "s8", hmac := hmac44, rawBody := "body8"
    tsHeader := some "t8", sigHeader := some "zz"
    wtype := some "PAYMENT_FAILED_WEBHOOK"
    wdata := some { order := some "CF_8", cf_payment_id := none }
    saveFails := false, orders := [oC8], redis := [], products := [] }

/-- Webhook for `CF_8` with an equal-length mismatching signature. -/
def envC8w : WebhookEnv :=
  { envC8 with
    sigHeader := some "9876543210FEDCBA9876543210FEDCBA9876543210Z=" }

/-- Reservation for `CF_9`, recorded for authenticated user `alice`. -/
def resvC9 : Reservation :=
  { userId := some "alice", shippingAddress := "addr9", products := []
    subtotal := 0, shipping := 99, tax := 0, discount := 0, totalAmount := 99 }

/-- User `bob` tries to confirm `alice`'s paid session `CF_9`. -/
def envC9w : CheckoutEnv :=
  { orderId := some "CF_9", reqUser := some "bob"
    payments := [{ payment_status := "SUCCESS", cf_payment_id := some "p9" }]
    orders := [], concurrent := []
    redis := [(PENDING_KEY "CF_9", resvC9)], products := [] }

/-- An Order for `CF_10` already past `pending`. -/
def oC10 : OrderRec :=
  { user := some "carol", products := [{ product := "E", quantity := 1, price := 1050 }]
    totalAmount := 1149, shippingAddress := "addr10"
    orderStatus := "shipped", cashfreeOrderId := "CF_10", cashfreePaymentId := some "p10" }

/-- Success webhook replayed against the shipped Order `CF_10`. -/
def envC10w : WebhookEnv :=
  { secret := none, hmac := fun _ _ => "", rawBody := ""
    tsHeader := none, sigHeader := none
    wtype := some "PAYMENT_SUCCESS_WEBHOOK"
    wdata := some { order := some "CF_10", cf_payment_id := some "p10new" }
    saveFails := false, orders := [oC10], redis := [], products := [] }

/-! ## General lemmas -/

theorem strTruthy_eq_some {x : Option String} {s : String}
    (h : strTruthy x = some s) : x = some s ∧ s ≠ "" := by
  cases x with
  | none => simp [strTruthy] at h
  | some t =>
    by_cases ht : t = ""
    · simp [strTruthy, ht] at h
    · simp only [strTruthy, if_neg ht, Option.some.injEq] at h
      subst h
      exact ⟨rfl, ht⟩

theorem decrementLine_nonneg (pid : String) (qty : ℤ) :
    ∀ (ps ps' : List ProductRec), decrementLine ps pid qty = some ps' →
      (∀ p ∈ ps, 0 ≤ p.stock) → ∀ p ∈ ps', 0 ≤ p.stock := by
  intro ps
  induction ps with
  | nil => intro ps' h _; simp [decrementLine] at h
  | cons p rest ih =>
    intro ps' h hnn
    rw [decrementLine] at h
    split at h
    · next hc =>
      cases h
      intro q hq
      rcases List.mem_cons.mp hq with rfl | hq
      · simpa using sub_nonneg.mpr hc.2
      · exact hnn q (List.mem_cons_of_mem _ hq)
    · next =>
      cases hrest : decrementLine rest pid qty with
      | none => rw [hrest] at h; simp at h
      | some rest' =>
        rw [hrest] at h
        simp only [Option.map_some'] at h
        cases h
        intro q hq
        rcases List.mem_cons.mp hq with rfl | hq
        · exact hnn _ (List.mem_cons_self _ _)
        · exact ih rest' hrest (fun r hr => hnn r (List.mem_cons_of_mem _ hr)) q hq

theorem decrementLine_sum (pid : String) (qty : ℤ) :
    ∀ (ps ps' : List ProductRec), decrementLine ps pid qty = some ps' →
      sumStocks ps' = sumStocks ps - qty := by
  intro ps
  induction ps with
  | nil => intro ps' h; simp [decrementLine] at h
  | cons p rest ih =>
    intro ps' h
    rw [decrementLine] at h
    split at h
    · next =>
      cases h
      simp [sumStocks]
      ring
    · next =>
      cases hrest : decrementLine rest pid qty with
      | none => rw [hrest] at h; simp at h
      | some rest' =>
        rw [hrest] at h
        simp only [Option.map_some'] at h
        cases h
        have := ih rest' hrest
        simp only [sumStocks, List.map_cons, List.sum_cons] at *
        omega

theorem decrementLine_none_iff (pid : String) (qty : ℤ) :
    ∀ (ps : List ProductRec), decrementLine ps pid qty = none ↔
      ∀ p ∈ ps, ¬(p.id = pid ∧ qty ≤ p.stock) := by
  intro ps
  induction ps with
  | nil => simp [decrementLine]
  | cons p rest ih =>
    rw [decrementLine]
    split
    · next hc =>
      simp only [List.forall_mem_cons]
      constructor
      · intro h; exact absurd h (by simp)
      · intro h; exact absurd hc h.1
    · next hc =>
      simp [List.forall_mem_cons, hc, ih]
      intro _ hp
      exact lt_of_not_le fun hle => hc ⟨hp, hle⟩

theorem applyDecrements_ok_nonneg :
    ∀ (lines : List ResvLine) (ps ps' : List ProductRec),
      applyDecrements lines ps = .ok ps' →
      (∀ p ∈ ps, 0 ≤ p.stock) → ∀ p ∈ ps', 0 ≤ p.stock := by
  intro lines
  induction lines with
  | nil =>
    intro ps ps' h hnn
    rw [applyDecrements] at h
    cases h
    exact hnn
  | cons l ls ih =>
    intro ps ps' h hnn
    rw [applyDecrements] at h
    cases hd : decrementLine ps l.productId l.quantity with
    | none => rw [hd] at h; exact Except.noConfusion h
    | some ps₁ =>
      rw [hd] at h
      exact ih ps₁ ps' h (decrementLine_nonneg _ _ _ _ hd hnn)

theorem applyDecrements_err_nonneg :
    ∀ (lines : List ResvLine) (ps : List ProductRec) (l : ResvLine)
      (psf : List ProductRec),
      applyDecrements lines ps = .error (l, psf) →
      (∀ p ∈ ps, 0 ≤ p.stock) → ∀ p ∈ psf, 0 ≤ p.stock := by
  intro lines
  induction lines with
  | nil =>
    intro ps l psf h _
    rw [applyDecrements] at h
    exact Except.noConfusion h
  | cons l₀ ls ih =>
    intro ps l psf h hnn
    rw [applyDecrements] at h
    cases hd : decrementLine ps l₀.productId l₀.quantity with
    | none =>
      rw [hd] at h
      cases h
      exact hnn
    | some ps₁ =>
      rw [hd] at h
      exact ih ps₁ l psf h (decrementLine_nonneg _ _ _ _ hd hnn)

theorem applyDecrements_ok_sum :
    ∀ (lines : List ResvLine) (ps ps' : List ProductRec),
      applyDecrements lines ps = .ok ps' →
      sumStocks ps' = sumStocks ps - qtySum lines := by
  intro lines
  induction lines with
  | nil =>
    intro ps ps' h
    rw [applyDecrements] at h
    cases h
    simp [qtySum]
  | cons l ls ih =>
    intro ps ps' h
    rw [applyDecrements] at h
    cases hd : decrementLine ps l.productId l.quantity with
    | none => rw [hd] at h; exact Except.noConfusion h
    | some ps₁ =>
      rw [hd] at h
      have h₁ := decrementLine_sum _ _ _ _ hd
      have h₂ := ih ps₁ ps' h
      simp only [qtySum, List.map_cons, List.sum_cons] at *
      omega

theorem countOrders_append (oid : String) (l₁ l₂ : List OrderRec) :
    countOrders oid (l₁ ++ l₂) = countOrders oid l₁ + countOrders oid l₂ := by
  simp [countOrders, List.filter_append]

theorem findOrder_none_count {oid : String} {l : List OrderRec}
    (h : findOrder l oid = none) : countOrders oid l = 0 := by
  rw [findOrder, List.find?_eq_none] at h
  simp only [countOrders, List.length_eq_zero, List.filter_eq_nil_iff]
  exact fun o ho => h o ho

/-! ## Claim theorems -/

/-- C6: for every checkout session the pricing follows the spec's rule
exactly — `baseSubtotal = round(S / 1.05)`, `tax = S - baseSubtotal` (so
`baseSubtotal + tax = S`), `shipping = 0` iff `S > 5000` else the flat 99,
`total = S + shipping` — and on the documented example (1 × 1050 and
2 × 525) the subtotal is 2100, base 2000, tax 100, shipping 99, total 2199. -/
theorem pricing_rule_and_example :
    (∀ S : ℚ, computePricing S = pricingSpec S) ∧
    (∀ S : ℚ, (computePricing S).baseSubtotal + (computePricing S).tax = S) ∧
    subtotalOf [((1050 : ℚ), (1 : ℤ)), ((525 : ℚ), (2 : ℤ))] = 2100 ∧
    computePricing 2100 =
      { baseSubtotal := 2000, tax := 100, shipping := 99, discount := 0
        totalAmount := 2199 } := by
  refine ⟨fun S => rfl, fun S => ?_, ?_, ?_⟩
  · simp only [computePricing]
    ring
  · norm_num [subtotalOf]
  · have h : jsRound ((2100 : ℚ) / 1.05) = 2000 := by norm_num [jsRound]
    simp only [computePricing, h, Pricing.mk.injEq]
    norm_num

/-- C2 (code bug): when the stock decrement for line 2 of the `CF_2`
materialization fails, the code deletes the just-created Order and the
Reservation and answers 409, but it does **not** reverse the decrement
already applied for line 1: product A is left at stock 4 with no Order —
exactly the "stock decrement lacking its Order" state the claim rules out. -/
theorem compensation_leaves_stock_decremented :
    checkoutSuccess envC2 =
      { status := 409
        message := "Insufficient stock for Widget B. Please update your cart and try again."
        order := none
        orders := []
        redis := []
        products :=
          [ { id := "A", name := "Widget A", price := 100, stock := 4, images := [] }
          , prodB ] } := by
  decide

/-- Any normally-returned result either leaves the Order collection as it
was, or appends exactly one Order whose gateway order id was not present. -/
theorem checkoutSuccessRun_orders (env : CheckoutEnv) (r : CheckoutResult)
    (h : checkoutSuccessRun env = .ok r) :
    r.orders = allOrders env ∨
    ∃ o : OrderRec, r.orders = allOrders env ++ [o] ∧
      findOrder (allOrders env) o.cashfreeOrderId = none := by
  unfold checkoutSuccessRun at h
  repeat' split at h
  all_goals cases h
  all_goals try (left; rfl)
  refine Or.inr ⟨_, rfl, ?_⟩
  simp only [buildOrder]
  assumption

/-- C1 (counterexample): the idempotency check is not the first step — for
`CF_1`, which already has an Order, a gateway answer with no payment
attempts yields 400 without returning the existing Order — and a
duplicate-key failure of the concurrent second write is not caught: it
surfaces as a fatal 500, not as "already materialized". -/
theorem idempotency_not_first_and_dup_key_fatal :
    checkoutSuccess envC1a =
      { status := 400, message := "No payment information found", order := none
        orders := [o1], redis := [], products := [] } ∧
    checkoutSuccess envC1b =
      { status := 500, message := "E11000 duplicate key error", order := none
        orders := [o1], redis := [(PENDING_KEY "CF_1", resvC1)], products := [] } := by
  exact ⟨by decide, by decide⟩

/-- C1 (amended): under a successful gateway payment report, (1) if an
Order for the gateway order id exists at the time of the existence check —
which runs after payment verification, not first — it is returned unchanged
with 200 and nothing is created; (2) the handler never takes a collection
with at most one Order per gateway order id to one with two; (3) a
duplicate-key violation raised by the concurrent second write is not caught
specially: the handler answers 500 and adds no Order. -/
theorem at_most_one_order_per_gateway_id (env : CheckoutEnv) (oid : String)
    (latest : Payment) (rest : List Payment)
    (hid : strTruthy env.orderId = some oid)
    (hpay : env.payments = latest :: rest)
    (hsucc : latest.payment_status = "SUCCESS") :
    (∀ o, findOrder env.orders oid = some o →
      checkoutSuccess env =
        { status := 200, message := "Order already processed", order := some o
          orders := allOrders env, redis := env.redis, products := env.products }) ∧
    (∀ oid' : String, countOrders oid' (allOrders env) ≤ 1 →
      countOrders oid' (checkoutSuccess env).orders ≤ 1) ∧
    (∀ o' resv, findOrder env.orders oid = none →
      findOrder (allOrders env) oid = some o' →
      redisGet env.redis (PENDING_KEY oid) = some resv →
      userMismatch resv.userId env.reqUser = false →
      checkoutSuccess env =
        { status := 500, message := "E11000 duplicate key error", order := none
          orders := allOrders env, redis := env.redis, products := env.products }) := by
  refine ⟨?_, ?_, ?_⟩
  · intro o ho
    simp [checkoutSuccess, checkoutSuccessRun, hid, hpay, hsucc, ho]
  · intro oid' hcount
    unfold checkoutSuccess
    cases hrun : checkoutSuccessRun env with
    | error m => exact hcount
    | ok r =>
      rcases checkoutSuccessRun_orders env r hrun with hsame | ⟨o, ho, hfind⟩
      · rw [hsame]; exact hcount
      · rw [ho, countOrders_append]
        by_cases heq : o.cashfreeOrderId = oid'
        · have h0 := findOrder_none_count hfind
          rw [heq] at h0
          have h1 : countOrders oid' [o] = 1 := by simp [countOrders, heq]
          omega
        · have h1 : countOrders oid' [o] = 0 := by simp [countOrders, heq]
          omega
  · intro o' resv hnone hdup hresv hmm
    simp [checkoutSuccess, checkoutSuccessRun, hid, hpay, hsucc, hnone, hresv, hmm, hdup]

/-- Witness for the amended C1 theorem at `envC1w`: the existing Order for
`CF_1` is returned unchanged. -/
theorem at_most_one_order_per_gateway_id_witness :
    checkoutSuccess envC1w =
      { status := 200, message := "Order already processed", order := some o1
        orders := [o1], redis := [], products := [] } := by
  have h := (at_most_one_order_per_gateway_id envC1w "CF_1"
    { payment_status := "SUCCESS", cf_payment_id := some "p1" } []
    (by decide) (by decide) rfl).1 o1 (by decide)
  simpa [allOrders, envC1w] using h

/-- Non-negative stock is preserved by any normally-returned
`checkoutSuccess` result. -/
theorem checkoutSuccessRun_nonneg (env : CheckoutEnv) (r : CheckoutResult)
    (h : checkoutSuccessRun env = .ok r)
    (hnn : ∀ p ∈ env.products, 0 ≤ p.stock) :
    ∀ p ∈ r.products, 0 ≤ p.stock := by
  unfold checkoutSuccessRun at h
  repeat' split at h
  all_goals cases h
  all_goals try exact hnn
  · rename_i x l ps' heq
    exact applyDecrements_err_nonneg _ _ _ _ heq hnn
  · rename_i x ps' heq
    exact applyDecrements_ok_nonneg _ _ _ heq hnn

/-- On the full-success response the total stock decrease equals the
created Order's total ordered quantity. -/
theorem checkoutSuccessRun_sum (env : CheckoutEnv) (r : CheckoutResult)
    (o : OrderRec) (h : checkoutSuccessRun env = .ok r)
    (hmsg : r.message = "Payment verified and order created")
    (hord : r.order = some o) :
    sumStocks env.products - sumStocks r.products =
      (o.products.map (·.quantity)).sum := by
  unfold checkoutSuccessRun at h
  repeat' split at h
  all_goals cases h
  all_goals try (simp at hord)
  all_goals try (simp at hmsg)
  rename_i x ps' heq
  subst hord
  have hs := applyDecrements_ok_sum _ _ _ heq
  simp only [qtySum] at hs
  show sumStocks env.products - sumStocks ps' = _
  simp only [buildOrder, List.map_map, Function.comp_def]
  omega

/-- C4: `Product.stock` never goes negative — each line's mutation is the
single conditional decrement, which succeeds iff some document has the
line's id and at least the requested stock (fails closed otherwise) — and a
fully successful checkout decreases total stock by exactly the sum of the
ordered quantities. -/
theorem stock_nonneg_and_conserved (env : CheckoutEnv)
    (hnn : ∀ p ∈ env.products, 0 ≤ p.stock) :
    (∀ p ∈ (checkoutSuccess env).products, 0 ≤ p.stock) ∧
    (∀ (ps : List ProductRec) (pid : String) (qty : ℤ),
      decrementLine ps pid qty = none ↔ ∀ p ∈ ps, ¬(p.id = pid ∧ qty ≤ p.stock)) ∧
    (∀ o, (checkoutSuccess env).message = "Payment verified and order created" →
      (checkoutSuccess env).order = some o →
      sumStocks env.products - sumStocks (checkoutSuccess env).products =
        (o.products.map (·.quantity)).sum) := by
  unfold checkoutSuccess
  cases hrun : checkoutSuccessRun env with
  | error m =>
    exact ⟨hnn, fun ps pid qty => decrementLine_none_iff pid qty ps,
      fun o _ hord => Option.noConfusion hord⟩
  | ok r =>
    exact ⟨checkoutSuccessRun_nonneg env r hrun hnn,
      fun ps pid qty => decrementLine_none_iff pid qty ps,
      fun o hmsg hord => checkoutSuccessRun_sum env r o hrun hmsg hord⟩

/-- Witness for the C4 theorem at `envC4w`: 3 × C are materialized, stock
stays non-negative and drops by exactly 3. -/
theorem stock_nonneg_and_conserved_witness :
    (∀ p ∈ (checkoutSuccess envC4w).products, 0 ≤ p.stock) ∧
    (checkoutSuccess envC4w).order =
      some (buildOrder "CF_4" resvC4
        { payment_status := "SUCCESS", cf_payment_id := some "p4" }) ∧
    sumStocks envC4w.products - sumStocks (checkoutSuccess envC4w).products =
      ((buildOrder "CF_4" resvC4
        { payment_status := "SUCCESS", cf_payment_id := some "p4" }).products.map
          (·.quantity)).sum := by
  have h := stock_nonneg_and_conserved envC4w
    (by simp [envC4w, prodC, List.forall_mem_cons])
  exact ⟨h.1, by decide, h.2.2 _ (by decide) (by decide)⟩

/-- C9: when the Reservation recorded an authenticated user and the
confirming request is not from that user, `checkoutSuccess` answers 403
Unauthorized and creates nothing. -/
theorem ownership_mismatch_rejected (env : CheckoutEnv) (oid : String)
    (latest : Payment) (rest : List Payment) (resv : Reservation) (u : String)
    (hid : strTruthy env.orderId = some oid)
    (hpay : env.payments = latest :: rest)
    (hsucc : latest.payment_status = "SUCCESS")
    (hnone : findOrder env.orders oid = none)
    (hresv : redisGet env.redis (PENDING_KEY oid) = some resv)
    (hu : strTruthy resv.userId = some u)
    (hmm : env.reqUser ≠ some u) :
    checkoutSuccess env =
      { status := 403, message := "Unauthorized", order := none
        orders := allOrders env, redis := env.redis, products := env.products } := by
  have hm : userMismatch resv.userId env.reqUser = true := by
    simp [userMismatch, hu, hmm]
  simp [checkoutSuccess, checkoutSuccessRun, hid, hpay, hsucc, hnone, hresv, hm]

/-- Witness for the C9 theorem: `bob` cannot claim `alice`'s session `CF_9`. -/
theorem ownership_mismatch_rejected_witness :
    checkoutSuccess envC9w =
      { status := 403, message := "Unauthorized", order := none
        orders := [], redis := [(PENDING_KEY "CF_9", resvC9)], products := [] } := by
  have h := ownership_mismatch_rejected envC9w "CF_9"
    { payment_status := "SUCCESS", cf_payment_id := some "p9" } [] resvC9 "alice"
    (by decide) (by decide) rfl (by decide) (by decide) (by decide) (by decide)
  simpa [allOrders, envC9w] using h

/-- A non-200 outcome of `createCheckoutSession` leaves Redis untouched. -/
theorem createCheckoutSessionRun_redis (env : SessionEnv) (r : SessionResult)
    (h : createCheckoutSessionRun env = .ok r) (hst : r.status ≠ 200) :
    r.redis = env.redis := by
  unfold createCheckoutSessionRun sessionReject sessionSuccess at h
  repeat' split at h
  all_goals cases h
  all_goals try rfl
  exact absurd rfl hst

/-- A 200 outcome of `createCheckoutSession` implies the gateway call
succeeded. -/
theorem createCheckoutSessionRun_200_gateway (env : SessionEnv)
    (r : SessionResult) (h : createCheckoutSessionRun env = .ok r)
    (hst : r.status = 200) : ∃ p, env.gatewayResp = .ok p := by
  unfold createCheckoutSessionRun sessionReject sessionSuccess at h
  repeat' split at h
  all_goals cases h
  all_goals try (simp at hst)
  rename_i psid oid heq
  exact ⟨(psid, oid), heq⟩

/-- C7: when `Cashfree.PGCreateOrder` fails, `createCheckoutSession` aborts
fail-closed: no Reservation is written to Redis and the response is never a
success. -/
theorem gateway_failure_writes_no_reservation (env : SessionEnv) (m : String)
    (hgw : env.gatewayResp = .error m) :
    (createCheckoutSession env).redis = env.redis ∧
    (createCheckoutSession env).status ≠ 200 := by
  unfold createCheckoutSession
  cases hrun : createCheckoutSessionRun env with
  | error m' => exact ⟨rfl, by simp⟩
  | ok r =>
    by_cases hst : r.status = 200
    · rcases createCheckoutSessionRun_200_gateway env r hrun hst with ⟨p, hp⟩
      rw [hgw] at hp
      exact Except.noConfusion hp
    · exact ⟨createCheckoutSessionRun_redis env r hrun hst, hst⟩

/-- Witness for the C7 theorem at `envC7w` (gateway 502). -/
theorem gateway_failure_writes_no_reservation_witness :
    (createCheckoutSession envC7w).redis = [] ∧
    (createCheckoutSession envC7w).status ≠ 200 := by
  have h := gateway_failure_writes_no_reservation envC7w
    "Request failed with status code 502" rfl
  simpa [envC7w] using h

/-- Every normally-returned webhook result has status 200. -/
theorem webhookProceed_status (env : WebhookEnv) (r : WebhookResult)
    (h : webhookProceed env = .ok r) : r.status = 200 := by
  unfold webhookProceed webhookAck webhookSwitch webhookSave at h
  repeat' split at h
  all_goals cases h
  all_goals rfl

/-- The webhook handler body never touches Redis or the Product collection. -/
theorem cashfreeWebhookRun_state (env : WebhookEnv) (r : WebhookResult)
    (h : cashfreeWebhookRun env = .ok r) :
    r.redis = env.redis ∧ r.products = env.products := by
  unfold cashfreeWebhookRun webhookProceed webhookAck webhookSwitch webhookSave at h
  repeat' split at h
  all_goals cases h
  all_goals exact ⟨rfl, rfl⟩

/-- When no Order exists for the webhook's gateway order id, the Order
collection is left unchanged. -/
theorem cashfreeWebhookRun_orders_nofind (env : WebhookEnv)
    (r : WebhookResult) (oid : String) (d : WebhookData)
    (h : cashfreeWebhookRun env = .ok r) (hd : env.wdata = some d)
    (hoid : strTruthy d.order = some oid)
    (hfind : findOrder env.orders oid = none) : r.orders = env.orders := by
  have hp : webhookProceed env =
      .ok { status := 200, message := "Order not found", orders := env.orders
            redis := env.redis, products := env.products } := by
    simp [webhookProceed, hd, hoid, hfind, webhookAck]
  unfold cashfreeWebhookRun webhookAck at h
  repeat' split at h
  all_goals try rw [hp] at h
  all_goals cases h
  all_goals rfl

/-- A failing equal-length comparison produces the 401 acknowledgment. -/
theorem cashfreeWebhookRun_401 (env : WebhookEnv) (ts sig : String)
    (hts : strTruthy env.tsHeader = some ts)
    (hsig : strTruthy env.sigHeader = some sig)
    (hv : verifyCashfreeWebhook env.secret env.hmac env.rawBody ts sig = .ok false) :
    cashfreeWebhookRun env =
      .ok { status := 401, message := "Invalid signature", orders := env.orders
            redis := env.redis, products := env.products } := by
  simp [cashfreeWebhookRun, hts, hsig, hv, webhookAck]

/-- Any normally-returned webhook result is a 200, or the 401 produced by a
failing signature comparison. -/
theorem cashfreeWebhookRun_status (env : WebhookEnv) (r : WebhookResult)
    (h : cashfreeWebhookRun env = .ok r) :
    r.status = 200 ∨ (r.status = 401 ∧ ∃ ts sig,
      strTruthy env.tsHeader = some ts ∧ strTruthy env.sigHeader = some sig ∧
      verifyCashfreeWebhook env.secret env.hmac env.rawBody ts sig = .ok false) := by
  unfold cashfreeWebhookRun webhookAck at h
  repeat' split at h
  all_goals try (left; exact webhookProceed_status env r h)
  all_goals cases h
  rename_i ts sig hts hsig x hv
  exact Or.inr ⟨rfl, ts, sig, hts, hsig, hv⟩

/-- C3 (counterexample): with a secret configured, a webhook whose
signature header is entirely **missing** is not rejected — verification is
skipped and the tampered request mutates the `CF_3` Order (200, status
moved to processing); and a signature of the wrong byte length is answered
200, not 401. -/
theorem missing_signature_header_not_rejected :
    cashfreeWebhook envC3a =
      { status := 200, message := ""
        orders := [{ oC3 with
          orderStatus := "processing"
          cashfreePaymentId := some "pay_new" }]
        redis := [], products := [] } ∧
    cashfreeWebhook envC3b =
      { status := 200, message := "Webhook received", orders := [oC3]
        redis := [], products := [] } := by
  exact ⟨by decide, by decide⟩

/-- C3 (amended): when a secret is configured and **both** headers are
present and non-empty, an equal-byte-length mismatch of the recomputed
HMAC-SHA256 over `timestamp ++ rawBody` against the signature header (in
particular a tampered body under an unchanged signature) is rejected with
401 before any Order or Reservation mutation; a differing byte length makes
the constant-time comparison throw, acknowledged 200 with no mutation. A
missing or empty header skips verification entirely. -/
theorem webhook_equal_length_mismatch_rejected (env : WebhookEnv)
    (sec ts sig : String)
    (hsec : strTruthy env.secret = some sec)
    (hts : strTruthy env.tsHeader = some ts)
    (hsig : strTruthy env.sigHeader = some sig)
    (hbody : env.rawBody ≠ "") :
    ((env.hmac sec (ts ++ env.rawBody)).utf8ByteSize = sig.utf8ByteSize →
      env.hmac sec (ts ++ env.rawBody) ≠ sig →
      cashfreeWebhook env =
        { status := 401, message := "Invalid signature", orders := env.orders
          redis := env.redis, products := env.products }) ∧
    ((env.hmac sec (ts ++ env.rawBody)).utf8ByteSize ≠ sig.utf8ByteSize →
      cashfreeWebhook env =
        { status := 200, message := "Webhook received", orders := env.orders
          redis := env.redis, products := env.products }) := by
  have hts' := strTruthy_eq_some hts
  have hsig' := strTruthy_eq_some hsig
  constructor
  · intro hlen hne
    have hv : verifyCashfreeWebhook env.secret env.hmac env.rawBody ts sig =
        .ok false := by
      simp [verifyCashfreeWebhook, hsec, hbody, hts'.2, hsig'.2, hlen, hne]
    simp [cashfreeWebhook, cashfreeWebhookRun, hts, hsig, hv, webhookAck]
  · intro hlen
    have hv : verifyCashfreeWebhook env.secret env.hmac env.rawBody ts sig =
        .error () := by
      simp [verifyCashfreeWebhook, hsec, hbody, hts'.2, hsig'.2, hlen]
    simp [cashfreeWebhook, cashfreeWebhookRun, hts, hsig, hv]

/-- Witness for the amended C3 theorem at `envC3w`: equal-length signature
mismatch is rejected 401 with no mutation. -/
theorem webhook_equal_length_mismatch_rejected_witness :
    cashfreeWebhook envC3w =
      { status := 401, message := "Invalid signature", orders := [oC3]
        redis := [], products := [] } := by
  have h := (webhook_equal_length_mismatch_rejected envC3w
    "topsecret" "1700000000" "AB"
    (by decide) (by decide) (by decide) (by decide)).1 (by decide) (by decide)
  simpa [envC3w] using h

/-- C5 (counterexample): `CF_5` has a stored Reservation, a successful
payment at the gateway and no Order, yet the success webhook does **not**
materialize: it acknowledges "Order not found", creates no Order, touches
neither the Reservation nor product stock. -/
theorem webhook_does_not_materialize :
    cashfreeWebhook envC5 =
      { status := 200, message := "Order not found", orders := []
        redis := [(PENDING_KEY "CF_5", resvC5)], products := [prodD] } := by
  decide

/-- C5 (amended): only the client confirmation call materializes. The
webhook path never creates an Order, never decrements stock and never
touches the Reservation store: when no Order exists for the reported
gateway order id it leaves the Order collection unchanged as well; the
confirmation call on the very same `CF_5` state does materialize. -/
theorem materialization_only_via_confirmation :
    (∀ env : WebhookEnv,
      (cashfreeWebhook env).redis = env.redis ∧
      (cashfreeWebhook env).products = env.products ∧
      (∀ d oid, env.wdata = some d → strTruthy d.order = some oid →
        findOrder env.orders oid = none →
        (cashfreeWebhook env).orders = env.orders)) ∧
    checkoutSuccess envC5m =
      { status := 200, message := "Payment verified and order created"
        order := some (buildOrder "CF_5" resvC5
          { payment_status := "SUCCESS", cf_payment_id := some "pay5" })
        orders := [buildOrder "CF_5" resvC5
          { payment_status := "SUCCESS", cf_payment_id := some "pay5" }]
        redis := []
        products := [{ prodD with stock := 3 }] } := by
  constructor
  · intro env
    unfold cashfreeWebhook
    cases hrun : cashfreeWebhookRun env with
    | error m => exact ⟨rfl, rfl, fun d oid _ _ _ => rfl⟩
    | ok r =>
      have hstate := cashfreeWebhookRun_state env r hrun
      exact ⟨hstate.1, hstate.2, fun d oid hd hoid hfind =>
        cashfreeWebhookRun_orders_nofind env r oid d hrun hd hoid hfind⟩
  · decide

/-- Witness for the amended C5 theorem at `envC5`: the webhook leaves the
(empty) Order collection unchanged. -/
theorem materialization_only_via_confirmation_witness :
    (cashfreeWebhook envC5).orders = [] := by
  have h := (materialization_only_via_confirmation.1 envC5).2.2
    { order := some "CF_5", cf_payment_id := some "pay5" } "CF_5"
    rfl (by decide) (by decide)
  simpa [envC5] using h

/-- C8 (counterexample): for `CF_8` the signature header has the wrong byte
length, so signature verification fails by throwing — yet the handler
answers 200 "Webhook received", not 401. -/
theorem wrong_length_signature_yields_200 :
    verifyCashfreeWebhook (some "s8") hmac44 "body8" "t8" "zz" = .error () ∧
    cashfreeWebhook envC8 =
      { status := 200, message := "Webhook received", orders := [oC8]
        redis := [], products := [] } := by
  exact ⟨rfl, by decide⟩

/-- C8 (amended): the webhook handler only ever answers 200 or 401, and it
answers 401 exactly when both headers are present and the equal-length
signature comparison returns false; every other outcome — including a
signature whose byte length makes the constant-time comparison throw — is
acknowledged with 200. -/
theorem webhook_always_200_or_401 (env : WebhookEnv) :
    ((cashfreeWebhook env).status = 200 ∨ (cashfreeWebhook env).status = 401) ∧
    ((cashfreeWebhook env).status = 401 ↔ ∃ ts sig,
      strTruthy env.tsHeader = some ts ∧ strTruthy env.sigHeader = some sig ∧
      verifyCashfreeWebhook env.secret env.hmac env.rawBody ts sig =
        .ok false) := by
  unfold cashfreeWebhook
  cases hrun : cashfreeWebhookRun env with
  | error m =>
    refine ⟨Or.inl rfl, fun h => absurd h (by simp), fun hex => ?_⟩
    rcases hex with ⟨ts, sig, hts, hsig, hv⟩
    have h401 := cashfreeWebhookRun_401 env ts sig hts hsig hv
    rw [hrun] at h401
    exact Except.noConfusion h401
  | ok r =>
    have hstat := cashfreeWebhookRun_status env r hrun
    refine ⟨?_, ?_, ?_⟩
    · rcases hstat with h | ⟨h, _⟩
      · exact Or.inl h
      · exact Or.inr h
    · intro h401
      rcases hstat with h | ⟨_, hex⟩
      · rw [h] at h401; exact absurd h401 (by simp)
      · exact hex
    · rintro ⟨ts, sig, hts, hsig, hv⟩
      have h := cashfreeWebhookRun_401 env ts sig hts hsig hv
      rw [hrun] at h
      injection h with h
      rw [h]

/-- Witness for the amended C8 theorem at `envC8w`: equal-length mismatch
answers 401. -/
theorem webhook_always_200_or_401_witness :
    (cashfreeWebhook envC8w).status = 401 := by
  exact (webhook_always_200_or_401 envC8w).2.mpr
    ⟨"t8", "9876543210FEDCBA9876543210FEDCBA9876543210Z=",
      by decide, by decide, rfl⟩

/-- When verification passes or is skipped, the webhook body runs. -/
theorem sigPasses_run (env : WebhookEnv) (h : sigPasses env = true) :
    cashfreeWebhookRun env = webhookProceed env := by
  unfold cashfreeWebhookRun
  cases hts : strTruthy env.tsHeader with
  | none => rfl
  | some ts =>
    cases hsig : strTruthy env.sigHeader with
    | none => rfl
    | some sig =>
      unfold sigPasses at h
      rw [hts, hsig] at h
      cases hv : verifyCashfreeWebhook env.secret env.hmac env.rawBody ts sig with
      | error e => simp [hv] at h
      | ok b =>
        cases b with
        | false => simp [hv] at h
        | true => simp [hv]

/-- The webhook leaves the Order collection unchanged when the found Order
for a success event is not `pending` — whatever the signature outcome. -/
theorem cashfreeWebhookRun_nonpending (env : WebhookEnv) (r : WebhookResult)
    (d : WebhookData) (oid : String) (o : OrderRec)
    (h : cashfreeWebhookRun env = .ok r) (hd : env.wdata = some d)
    (hoid : strTruthy d.order = some oid)
    (ho : findOrder env.orders oid = some o)
    (htype : env.wtype = some "PAYMENT_SUCCESS_WEBHOOK")
    (hnp : o.orderStatus ≠ "pending") : r.orders = env.orders := by
  have hp : webhookProceed env =
      .ok { status := 200, message := "", orders := env.orders
            redis := env.redis, products := env.products } := by
    simp [webhookProceed, hd, hoid, ho, webhookSwitch, htype, hnp, webhookAck]
  unfold cashfreeWebhookRun webhookAck at h
  repeat' split at h
  all_goals try rw [hp] at h
  all_goals cases h
  all_goals rfl

/-- C10: on a `PAYMENT_SUCCESS_WEBHOOK` for an existing Order, the Order is
mutated only when its `orderStatus` is `pending` (moved to `processing`
with the gateway payment id updated); in any other status the whole
collection — hence every field of the Order — is left unchanged. -/
theorem success_webhook_only_mutates_pending (env : WebhookEnv)
    (d : WebhookData) (oid : String) (o : OrderRec)
    (hd : env.wdata = some d) (hoid : strTruthy d.order = some oid)
    (ho : findOrder env.orders oid = some o)
    (htype : env.wtype = some "PAYMENT_SUCCESS_WEBHOOK") :
    (o.orderStatus ≠ "pending" → (cashfreeWebhook env).orders = env.orders) ∧
    (o.orderStatus = "pending" → sigPasses env = true → env.saveFails = false →
      (cashfreeWebhook env).orders =
        updateFirst (fun o' => o'.cashfreeOrderId = oid)
          (fun o' =>
            { o' with
              orderStatus := "processing"
              cashfreePaymentId := jsOrStr d.cf_payment_id o'.cashfreePaymentId })
          env.orders) := by
  constructor
  · intro hnp
    unfold cashfreeWebhook
    cases hrun : cashfreeWebhookRun env with
    | error m => rfl
    | ok r => exact cashfreeWebhookRun_nonpending env r d oid o hrun hd hoid ho htype hnp
  · intro hpend hsigp hsave
    have hrun := sigPasses_run env hsigp
    have hp : webhookProceed env =
        .ok { status := 200, message := ""
              orders := updateFirst (fun o' => o'.cashfreeOrderId = oid)
                (fun o' =>
                  { o' with
                    orderStatus := "processing"
                    cashfreePaymentId := jsOrStr d.cf_payment_id o'.cashfreePaymentId })
                env.orders
              redis := env.redis, products := env.products } := by
      simp [webhookProceed, hd, hoid, ho, webhookSwitch, htype, hpend,
        webhookSave, hsave, webhookAck]
    unfold cashfreeWebhook
    rw [hrun, hp]

/-- Witness for the C10 theorem at `envC10w`: the shipped Order `CF_10` is
untouched by a replayed success webhook. -/
theorem success_webhook_only_mutates_pending_witness :
    (cashfreeWebhook envC10w).orders = [oC10] := by
  have h := (success_webhook_only_mutates_pending envC10w
    { order := some "CF_10", cf_payment_id := some "p10new" } "CF_10" oC10
    rfl (by decide) (by decide) rfl).1 (by decide)
  simpa [envC10w] using h

end XRoboFly
